import Mathlib

/-!
Verification of the data-preparation and aggregation pipeline of the Sedai
cost-optimization dashboard (`app.py`): fiscal-calendar derivation, schema
normalization, multi-select filtering, KPI aggregation, money formatting and
the sprint summary, shallowly embedded in Lean.

Pandas cell parsing (`pd.to_datetime` / `pd.to_numeric`, both with
`errors='coerce'`) is external library code; it is abstracted at the cell
level: a cell that pandas would parse successfully is represented as an
already-typed `RawCell.rdate` / `RawCell.rnum`, and every other cell parses
to `none` (pandas: `NaT` / `NaN`), which is exactly the coercion contract the
dashboard relies on.  Null values (`NaN`) are represented as `Option.none`
throughout; pandas aggregations skip nulls, which the `sumOpt` / `meanOpt`
helpers mirror.
-/

namespace Sedai

/-- A calendar date (year, month, day), standing for a pandas `Timestamp`
(times of day play no role in the pipeline: `today` is taken through
`.normalize()`). -/
structure Date where
  year : Int
  month : Nat
  day : Nat
deriving DecidableEq

/-- `fy` (app.py line 68): fiscal-year label number,
`dt.year + 1 if dt.month >= 4 else dt.year`.  (The `pd.isna(dt)` guard of the
source is dead code: `fy` is only applied to the already null-filled
`when` series, so the argument here is always a real date.) -/
def fy (d : Date) : Int :=
  if 4 ≤ d.month then d.year + 1 else d.year

/-- `fq` (app.py line 73): fiscal quarter — Apr-Jun `Q1`, Jul-Sep `Q2`,
Oct-Dec `Q3`, otherwise (Jan-Mar) `Q4`. -/
def fq (d : Date) : String :=
  if d.month = 4 ∨ d.month = 5 ∨ d.month = 6 then "Q1"
  else if d.month = 7 ∨ d.month = 8 ∨ d.month = 9 then "Q2"
  else if d.month = 10 ∨ d.month = 11 ∨ d.month = 12 then "Q3"
  else "Q4"

/-- `Series.dt.month_name()`: the English month name of a month number. -/
def monthName (m : Nat) : String :=
  if m = 1 then "January" else if m = 2 then "February" else if m = 3 then "March"
  else if m = 4 then "April" else if m = 5 then "May" else if m = 6 then "June"
  else if m = 7 then "July" else if m = 8 then "August" else if m = 9 then "September"
  else if m = 10 then "October" else if m = 11 then "November" else "December"

/-- A raw spreadsheet cell, as read by `pd.read_excel`.  `rdate` / `rnum`
stand for cells that pandas date/numeric coercion would accept; `rstr` for a
cell it would reject (coercing to null); `rnull` for an empty cell. -/
inductive RawCell where
  | rnum (q : ℚ)
  | rstr (s : String)
  | rdate (d : Date)
  | rnull
deriving DecidableEq

/-- `pd.to_datetime(col, errors='coerce')` at the cell level: a parseable
date survives, everything else becomes null (`NaT`), never an error. -/
def parseDate : RawCell → Option Date
  | RawCell.rdate d => some d
  | _ => none

/-- `pd.to_numeric(col, errors='coerce')` at the cell level: a parseable
number survives, everything else becomes null (`NaN`), never an error. -/
def parseNum : RawCell → Option ℚ
  | RawCell.rnum q => some q
  | _ => none

/-- Which of the required source columns are present in the uploaded sheet
(app.py lines 48-54 materialize the absent ones as all-null columns). -/
structure Presence where
  sprint : Bool
  startDate : Bool
  endDate : Bool
  inferenceType : Bool
  region : Bool
  cloudProvider : Bool
  currentMonthlyCost : Bool
  estMonthlyCost : Bool
  costSavingsAmt : Bool
  costSavingsPct : Bool
  achievedSavings : Bool
  unachievableSavings : Bool
  delayedSavings : Bool
  initiatedSavings : Bool
deriving DecidableEq

/-- One raw row of the spreadsheet.  The categorical columns (`Sprint`,
`Inference Type`, `Region`, `Cloud Provider`) are never parsed by the code,
so they are carried directly as optional strings; the date and numeric
columns go through the coercions above and are carried as raw cells. -/
structure RawRow where
  sprint : Option String
  startDate : RawCell
  endDate : RawCell
  inferenceType : Option String
  region : Option String
  cloudProvider : Option String
  currentMonthlyCost : RawCell
  estMonthlyCost : RawCell
  costSavingsAmt : RawCell
  costSavingsPct : RawCell
  achievedSavings : RawCell
  unachievableSavings : RawCell
  delayedSavings : RawCell
  initiatedSavings : RawCell
deriving DecidableEq

/-- A raw table: column-presence flags plus the rows. -/
structure RawTable where
  pres : Presence
  rows : List RawRow
deriving DecidableEq

/-- A fully normalized record, as produced by `load_data` (app.py lines
46-93): all required columns present (null when the source column was
missing), dates and numerics coerced, and the derived calendar fields. -/
structure NormRow where
  sprint : Option String
  startDate : Option Date
  endDate : Option Date
  inferenceType : Option String
  region : Option String
  cloudProvider : Option String
  currentMonthlyCost : Option ℚ
  estMonthlyCost : Option ℚ
  costSavingsAmt : Option ℚ
  costSavingsPct : Option ℚ
  achievedSavings : Option ℚ
  unachievableSavings : Option ℚ
  delayedSavings : Option ℚ
  initiatedSavings : Option ℚ
  effectiveDate : Date
  month : String
  year : Int
  fyLabel : String
  quarter : String
  fyQuarter : String
deriving DecidableEq

/-- The per-row normalization of `load_data` (app.py lines 46-93): a column
absent from the source is all-null; dates and numerics are coerced; the
effective date is `Start Date` filled with `End Date` filled with today
(`when = df['Start Date'].fillna(df['End Date']).fillna(today)`), and
`Month`, `Year`, `FY`, `Quarter`, `FY_Quarter` derive from it. -/
def normalizeRow (p : Presence) (today : Date) (r : RawRow) : NormRow :=
  let sd := if p.startDate then parseDate r.startDate else none
  let ed := if p.endDate then parseDate r.endDate else none
  let eff := (sd.orElse (fun _ => ed)).getD today
  { sprint := if p.sprint then r.sprint else none
    startDate := sd
    endDate := ed
    inferenceType := if p.inferenceType then r.inferenceType else none
    region := if p.region then r.region else none
    cloudProvider := if p.cloudProvider then r.cloudProvider else none
    currentMonthlyCost := if p.currentMonthlyCost then parseNum r.currentMonthlyCost else none
    estMonthlyCost := if p.estMonthlyCost then parseNum r.estMonthlyCost else none
    costSavingsAmt := if p.costSavingsAmt then parseNum r.costSavingsAmt else none
    costSavingsPct := if p.costSavingsPct then parseNum r.costSavingsPct else none
    achievedSavings := if p.achievedSavings then parseNum r.achievedSavings else none
    unachievableSavings := if p.unachievableSavings then parseNum r.unachievableSavings else none
    delayedSavings := if p.delayedSavings then parseNum r.delayedSavings else none
    initiatedSavings := if p.initiatedSavings then parseNum r.initiatedSavings else none
    effectiveDate := eff
    month := monthName eff.month
    year := eff.year
    fyLabel := "FY" ++ toString (fy eff)
    quarter := fq eff
    fyQuarter := ("FY" ++ toString (fy eff)) ++ " " ++ fq eff }

/-- `load_data` (app.py lines 34-93).  `uploaded` is the uploaded file (if
any), `defaultFile` the file at the default path (if it exists), `today`
the current date.  Returns the normalized table together with the flag of
whether the missing-data warning (`st.warning`) fired; when neither source
exists the result is the empty table with the warning, not an exception. -/
def loadData (uploaded : Option RawTable) (defaultFile : Option RawTable)
    (today : Date) : List NormRow × Bool :=
  match uploaded with
  | some t => (t.rows.map (normalizeRow t.pres today), false)
  | none =>
    match defaultFile with
    | some t => (t.rows.map (normalizeRow t.pres today), false)
    | none => ([], true)

/-- Round to the nearest integer, ties to even — the rounding of Python's
`format(x, ',.0f')`. -/
def roundHalfEven (q : ℚ) : Int :=
  if q - ⌊q⌋ < 1/2 then ⌊q⌋
  else if 1/2 < q - ⌊q⌋ then ⌊q⌋ + 1
  else if ⌊q⌋ % 2 = 0 then ⌊q⌋ else ⌊q⌋ + 1

/-- Insert the thousands separators of the `,` format flag; the input and
output digit lists run least-significant digit first. -/
def commaChunks : List Char → List Char
  | [] => []
  | [a] => [a]
  | [a, b] => [a, b]
  | [a, b, c] => [a, b, c]
  | a :: b :: c :: d :: rest => a :: b :: c :: ',' :: commaChunks (d :: rest)

/-- Python `f"{x:,.0f}"`: sign taken from the value (so `-0.4` renders as
`-0`), magnitude rounded half-to-even, digits grouped in threes. -/
def formatMoney (q : ℚ) : String :=
  (if q < 0 then "-" else "") ++
    String.mk (commaChunks (toString (roundHalfEven |q|).toNat).toList.reverse).reverse

/-- `money` (app.py lines 96-101): a null amount renders as a dash when
`zero_dash` is set, else as `"$0"`; a near-zero amount (absolute value below
0.5) renders as a dash when `zero_dash` is set; anything else is formatted
as whole dollars. -/
def money (x : Option ℚ) (zeroDash : Bool) : String :=
  match x with
  | none => if zeroDash then "—" else "$0"
  | some v =>
    if |v| < 1/2 ∧ zeroDash then "—"
    else "$" ++ formatMoney v

/-- pandas `Series.sum()`: nulls are skipped; an empty or all-null series
sums to `0`, never to an error. -/
def sumOpt (xs : List (Option ℚ)) : ℚ := (xs.filterMap id).sum

/-- pandas `Series.mean()`: nulls are skipped; an empty or all-null series
has a null (`NaN`) mean, never an error. -/
def meanOpt (xs : List (Option ℚ)) : Option ℚ :=
  let v := xs.filterMap id
  if v = [] then none else some (v.sum / v.length)

/-- `df['Current Monthly Cost ($)'].sum()` over a (filtered) table. -/
def curSum (df : List NormRow) : ℚ := sumOpt (df.map (·.currentMonthlyCost))

/-- `df['Cost Savings in $'].sum()` over a (filtered) table. -/
def savSum (df : List NormRow) : ℚ := sumOpt (df.map (·.costSavingsAmt))

/-- `weighted_savings_pct` (app.py lines 104-109): when the current-cost sum
is truthy and positive (`if cur and cur > 0`), the cost-weighted percentage
`sav / cur * 100.0`; otherwise the plain mean of `Cost Savings in %` unless
that column is entirely null (`isna().all()`), in which case `0.0`. -/
def weightedSavingsPct (df : List NormRow) : ℚ :=
  if curSum df ≠ 0 ∧ 0 < curSum df then
    savSum df / curSum df * 100
  else
    if ¬ ((df.map (·.costSavingsPct)).filterMap id = []) then
      ((df.map (·.costSavingsPct)).filterMap id).sum /
        ((df.map (·.costSavingsPct)).filterMap id).length
    else 0

/-- The same metric written from the spec's words (§4.2): if the sum of
`current_monthly_cost` over the view is strictly positive, compute
`100 * sum(cost_savings_amount) / sum(current_monthly_cost)`; otherwise the
arithmetic mean of `cost_savings_percent` ignoring nulls, or `0` if all
values are null. -/
def weightedSavingsPctSpec (df : List NormRow) : ℚ :=
  if 0 < curSum df then
    100 * savSum df / curSum df
  else
    if (df.map (·.costSavingsPct)).filterMap id = [] then 0
    else
      ((df.map (·.costSavingsPct)).filterMap id).sum /
        ((df.map (·.costSavingsPct)).filterMap id).length

/-- The four headline KPIs (app.py lines 161-169). -/
structure Kpis where
  count : Nat
  totalSavings : ℚ
  weightedPct : ℚ
  avgPerRec : Option ℚ
deriving DecidableEq

/-- The KPI row (app.py lines 161-169): row count, savings sum, weighted
percentage, and the mean savings per recommendation (null on an empty or
all-null view). -/
def computeKpis (df : List NormRow) : Kpis :=
  { count := df.length
    totalSavings := savSum df
    weightedPct := weightedSavingsPct df
    avgPerRec := meanOpt (df.map (·.costSavingsAmt)) }

/-- The Avg Savings / Rec KPI as displayed (app.py line 169):
`money(flt['Cost Savings in $'].mean())` with `zero_dash` defaulted off. -/
def avgSavingsDisplay (df : List NormRow) : String :=
  money (meanOpt (df.map (·.costSavingsAmt))) false

/-- `multi_filter`'s option list (app.py line 141):
`sorted(pd.Series(values).dropna().unique())` — the sorted distinct values
of an already null-free value list. -/
def optionsOf {α : Type} [LinearOrder α] (l : List α) : List α :=
  List.insertionSort (· ≤ ·) l.dedup

/-- Options of the Month dimension (the `Month` column is never null). -/
def monthOptions (df : List NormRow) : List String := optionsOf (df.map (·.month))

/-- Options of the Year dimension (the `Year` column is never null). -/
def yearOptions (df : List NormRow) : List Int := optionsOf (df.map (·.year))

/-- Options of the Fiscal Year dimension (the `FY` column is never null). -/
def fyOptions (df : List NormRow) : List String := optionsOf (df.map (·.fyLabel))

/-- Options of the Sprint dimension: `dropna()` removes the null sprints
before the distinct values are collected. -/
def sprintOptions (df : List NormRow) : List String :=
  optionsOf ((df.map (·.sprint)).filterMap id)

/-- The combined filter mask (app.py lines 150-155), one conjunct per
dimension via `Series.isin`.  A null sprint is not equal to any member of a
selection drawn from non-null options, so `isin` is false on it. -/
def passes (sM : List String) (sY : List Int) (sF : List String) (sS : List String)
    (r : NormRow) : Bool :=
  decide (r.month ∈ sM) && decide (r.year ∈ sY) && decide (r.fyLabel ∈ sF) &&
    (match r.sprint with
     | some s => decide (s ∈ sS)
     | none => false)

/-- `flt = df[mask]` (app.py line 156): the rows passing the mask, in the
order of the source table. -/
def filterRows (df : List NormRow) (sM : List String) (sY : List Int)
    (sF : List String) (sS : List String) : List NormRow :=
  df.filter (passes sM sY sF sS)

/-- The per-interaction state: the loaded source table and the filtered
view derived from it. -/
structure SessionState where
  source : List NormRow
  view : List NormRow
deriving DecidableEq

/-- One filter interaction: `flt = df[mask].copy()` builds a fresh view
from the source table; boolean indexing plus `.copy()` never mutates `df`,
so the source is passed through unchanged. -/
def applyFilters (s : SessionState) (sM : List String) (sY : List Int)
    (sF : List String) (sS : List String) : SessionState :=
  { source := s.source, view := filterRows s.source sM sY sF sS }

/-- The sprint keys of `flt.groupby('Sprint', dropna=False)`: every distinct
sprint value of the view, the null group included. -/
def sprintKeys (df : List NormRow) : List (Option String) :=
  (df.map (·.sprint)).dedup

/-- The rows of one sprint group. -/
def sprintGroup (df : List NormRow) (k : Option String) : List NormRow :=
  df.filter (fun r => decide (r.sprint = k))

/-- `Total_Savings_USD` of a sprint group (app.py line 245): the group sum
of `Cost Savings in $` (nulls skipped, 0 on an all-null group). -/
def sprintTotalSavings (df : List NormRow) (k : Option String) : ℚ :=
  sumOpt ((sprintGroup df k).map (·.costSavingsAmt))

/-- `Current_Spend_USD` of a sprint group (app.py line 243): the group sum
of `Current Monthly Cost ($)` (nulls skipped, 0 on an all-null group — a
group spend is therefore never null/missing). -/
def sprintCurrentSpend (df : List NormRow) (k : Option String) : ℚ :=
  sumOpt ((sprintGroup df k).map (·.currentMonthlyCost))

/-- `Total_Savings_%` (app.py line 256):
`(Total_Savings_USD / Current_Spend_USD).replace([inf, -inf], 0).fillna(0) * 100`.
A zero spend makes the float ratio `±inf` (or `NaN` when the savings sum is
also 0), and `replace`/`fillna` map all of those to 0 before the scaling
by 100; a nonzero spend gives the plain ratio. -/
def sprintTotalSavingsPct (df : List NormRow) (k : Option String) : ℚ :=
  (if sprintCurrentSpend df k = 0 then 0
   else sprintTotalSavings df k / sprintCurrentSpend df k) * 100

/-- A normalized row with a given sprint, current cost, savings amount and
savings percentage; the remaining fields take fixed neutral values
consistent with an effective date of 2024-05-01 (used to build the concrete
test tables below). -/
def mkRow (sprint : Option String) (cur sav pct : Option ℚ) : NormRow :=
  { sprint := sprint
    startDate := none
    endDate := none
    inferenceType := none
    region := none
    cloudProvider := none
    currentMonthlyCost := cur
    estMonthlyCost := none
    costSavingsAmt := sav
    costSavingsPct := pct
    achievedSavings := none
    unachievableSavings := none
    delayedSavings := none
    initiatedSavings := none
    effectiveDate := ⟨2024, 5, 1⟩
    month := monthName 5
    year := 2024
    fyLabel := "FY" ++ toString (fy ⟨2024, 5, 1⟩)
    quarter := fq ⟨2024, 5, 1⟩
    fyQuarter := ("FY" ++ toString (fy ⟨2024, 5, 1⟩)) ++ " " ++ fq ⟨2024, 5, 1⟩ }

/-- The view of C2's example: every `current_monthly_cost` null or zero and
`cost_savings_percent` holding [10, 20, null]. -/
def c2Rows : List NormRow :=
  [mkRow (some "S1") none (some 0) (some 10),
   mkRow (some "S1") (some 0) none (some 20),
   mkRow (some "S1") none none none]

/-- Membership in an option list is membership among the occurring values:
sorting permutes and `dedup` only removes repetitions. -/
theorem mem_optionsOf {α : Type} [LinearOrder α] {l : List α} {a : α} :
    a ∈ optionsOf l ↔ a ∈ l := by
  unfold optionsOf
  rw [List.mem_insertionSort, List.mem_dedup]

/-- An option list is sorted. -/
theorem sorted_optionsOf {α : Type} [LinearOrder α] (l : List α) :
    List.Sorted (· ≤ ·) (optionsOf l) :=
  List.sorted_insertionSort _ _

/-- An option list has no duplicates. -/
theorem nodup_optionsOf {α : Type} [LinearOrder α] (l : List α) :
    (optionsOf l).Nodup :=
  (List.perm_insertionSort _ _).nodup_iff.mpr (List.nodup_dedup l)

/-- C1: for every effective date, a month in {1,2,3} yields quarter `Q4` and
fiscal year equal to the calendar year; a month in {4,...,12} yields fiscal
year one past the calendar year; and the quarters map Apr-Jun to `Q1`,
Jul-Sep to `Q2`, Oct-Dec to `Q3`. -/
theorem C1_fiscal_calendar :
    (∀ d : Date, 1 ≤ d.month → d.month ≤ 3 → fq d = "Q4" ∧ fy d = d.year) ∧
    (∀ d : Date, 4 ≤ d.month → d.month ≤ 12 → fy d = d.year + 1) ∧
    (∀ d : Date, 4 ≤ d.month → d.month ≤ 6 → fq d = "Q1") ∧
    (∀ d : Date, 7 ≤ d.month → d.month ≤ 9 → fq d = "Q2") ∧
    (∀ d : Date, 10 ≤ d.month → d.month ≤ 12 → fq d = "Q3") := by
  refine ⟨?_, ?_, ?_, ?_, ?_⟩ <;> intro d h1 h2
  · constructor
    · have hm : d.month = 1 ∨ d.month = 2 ∨ d.month = 3 := by omega
      rcases hm with h | h | h <;> simp [fq, h]
    · have h4 : ¬ 4 ≤ d.month := by omega
      simp [fy, h4]
  · simp [fy, h1]
  · have hm : d.month = 4 ∨ d.month = 5 ∨ d.month = 6 := by omega
    rcases hm with h | h | h <;> simp [fq, h]
  · have hm : d.month = 7 ∨ d.month = 8 ∨ d.month = 9 := by omega
    rcases hm with h | h | h <;> simp [fq, h]
  · have hm : d.month = 10 ∨ d.month = 11 ∨ d.month = 12 := by omega
    rcases hm with h | h | h <;> simp [fq, h]

/-- C1, witnessed at concrete dates in each month band. -/
theorem C1_fiscal_calendar_witness :
    (fq ⟨2024, 2, 10⟩ = "Q4" ∧ fy ⟨2024, 2, 10⟩ = 2024) ∧
    fy ⟨2024, 5, 15⟩ = 2024 + 1 ∧
    fq ⟨2024, 5, 15⟩ = "Q1" ∧
    fq ⟨2024, 8, 1⟩ = "Q2" ∧
    fq ⟨2024, 11, 1⟩ = "Q3" :=
  ⟨C1_fiscal_calendar.1 ⟨2024, 2, 10⟩ (by decide) (by decide),
   C1_fiscal_calendar.2.1 ⟨2024, 5, 15⟩ (by decide) (by decide),
   C1_fiscal_calendar.2.2.1 ⟨2024, 5, 15⟩ (by decide) (by decide),
   C1_fiscal_calendar.2.2.2.1 ⟨2024, 8, 1⟩ (by decide) (by decide),
   C1_fiscal_calendar.2.2.2.2 ⟨2024, 11, 1⟩ (by decide) (by decide)⟩

/-- C4: the KPI computation on a zero-row view returns count 0, total
savings 0, weighted percentage 0 and a null mean — every aggregate is a
well-defined value (the embedding is total, so no division-by-zero or
missing-value error can propagate). -/
theorem C4_empty_view_kpis :
    computeKpis [] = { count := 0, totalSavings := 0, weightedPct := 0, avgPerRec := none } := by
  decide

/-- C8: with no uploaded source and no default-path file, `load_data`
returns the empty table and fires the non-fatal missing-data warning
instead of raising. -/
theorem C8_missing_source (today : Date) :
    loadData none none today = ([], true) := rfl

/-- C9: producing a filtered view leaves the source table exactly as it
was — `df[mask].copy()` builds a fresh view and never mutates `df`. -/
theorem C9_filter_preserves_source (s : SessionState) (sM : List String) (sY : List Int)
    (sF : List String) (sS : List String) :
    (applyFilters s sM sY sF sS).source = s.source := rfl

/-- C2: the weighted savings percentage agrees everywhere with the spec's
formula — `100 * sum(cost_savings_amount) / sum(current_monthly_cost)` when
the current-cost sum is strictly positive, otherwise the mean of the
non-null `cost_savings_percent` values and 0 when there are none — and on
the view with all costs null or zero and percentages [10, 20, null] it
returns 15. -/
theorem C2_weighted_savings_pct :
    (∀ df : List NormRow, weightedSavingsPct df = weightedSavingsPctSpec df) ∧
    weightedSavingsPct c2Rows = 15 := by
  constructor
  · intro df
    unfold weightedSavingsPct weightedSavingsPctSpec
    by_cases h : 0 < curSum df
    · rw [if_pos ⟨ne_of_gt h, h⟩, if_pos h]
      ring
    · have h2 : ¬ (curSum df ≠ 0 ∧ 0 < curSum df) := fun hc => h hc.2
      rw [if_neg h2, if_neg h]
      by_cases hp : (df.map (·.costSavingsPct)).filterMap id = []
      · rw [if_neg (not_not_intro hp), if_pos hp]
      · rw [if_pos hp, if_neg hp]
  · norm_num [weightedSavingsPct, curSum, savSum, sumOpt, c2Rows, mkRow, List.filterMap_cons]
    simp

/-- C6: in the sprint summary, the per-sprint savings percentage is
`100 * total_savings / current_spend` whenever the group's spend is nonzero,
and 0 — not infinite, not undefined — whenever the spend is zero (a group
spend is never missing: pandas sums an all-null group to 0). -/
theorem C6_sprint_savings_pct (df : List NormRow) (k : Option String) :
    (sprintCurrentSpend df k ≠ 0 →
      sprintTotalSavingsPct df k =
        100 * sprintTotalSavings df k / sprintCurrentSpend df k) ∧
    (sprintCurrentSpend df k = 0 → sprintTotalSavingsPct df k = 0) := by
  constructor
  · intro h
    unfold sprintTotalSavingsPct
    rw [if_neg h]
    ring
  · intro h
    unfold sprintTotalSavingsPct
    rw [if_pos h]
    ring

/-- The view of C6's witness: one sprint with a positive spend. -/
def c6Rows : List NormRow := [mkRow (some "S1") (some 1500) (some 200) none]

/-- The view of C6's witness: one sprint whose spend column is all null,
so its group spend sums to zero. -/
def c6RowsZero : List NormRow := [mkRow (some "S1") none (some 5) none]

/-- C6, witnessed on a group with spend 1500 and on a group with spend 0. -/
theorem C6_sprint_savings_pct_witness :
    sprintTotalSavingsPct c6Rows (some "S1") =
      100 * sprintTotalSavings c6Rows (some "S1") / sprintCurrentSpend c6Rows (some "S1") ∧
    sprintTotalSavingsPct c6RowsZero (some "S1") = 0 :=
  ⟨(C6_sprint_savings_pct c6Rows (some "S1")).1
     (by norm_num [sprintCurrentSpend, sprintGroup, sumOpt, c6Rows, mkRow, List.filterMap_cons]),
   (C6_sprint_savings_pct c6RowsZero (some "S1")).2
     (by norm_num [sprintCurrentSpend, sprintGroup, sumOpt, c6RowsZero, mkRow, List.filterMap_cons])⟩

/-- A one-row normalized table whose single row has a null `Sprint`: the
sprint option set is drawn from the non-null values only, so this row fails
the sprint conjunct of the mask even under the full (default) selection. -/
def c3Table : List NormRow := [mkRow none (some 100) (some 10) none]

/-- C3, counterexample: on `c3Table`, filtering with every dimension's full
option set drops the null-sprint row, so the view is not the unfiltered
table. -/
theorem C3_full_options_cex :
    filterRows c3Table (monthOptions c3Table) (yearOptions c3Table)
      (fyOptions c3Table) (sprintOptions c3Table) ≠ c3Table := by
  decide

/-- C3, amended: when every row's sprint is non-null, filtering with each
dimension's full option set returns the unfiltered table — same rows, same
order.  (Month, Year and FY are never null after normalization, so only the
sprint dimension needs the proviso.) -/
theorem C3_full_options_id (df : List NormRow) (h : ∀ r ∈ df, r.sprint ≠ none) :
    filterRows df (monthOptions df) (yearOptions df) (fyOptions df) (sprintOptions df) = df := by
  unfold filterRows
  rw [List.filter_eq_self]
  intro r hr
  unfold passes
  obtain ⟨s, hs⟩ : ∃ s, r.sprint = some s := by
    cases hsp : r.sprint with
    | none => exact absurd hsp (h r hr)
    | some s => exact ⟨s, rfl⟩
  rw [hs]
  simp only [Bool.and_eq_true, decide_eq_true_eq]
  refine ⟨⟨⟨?_, ?_⟩, ?_⟩, ?_⟩
  · exact mem_optionsOf.mpr (List.mem_map_of_mem _ hr)
  · exact mem_optionsOf.mpr (List.mem_map_of_mem _ hr)
  · exact mem_optionsOf.mpr (List.mem_map_of_mem _ hr)
  · exact mem_optionsOf.mpr
      (List.mem_filterMap.mpr ⟨some s, by rw [← hs]; exact List.mem_map_of_mem _ hr, rfl⟩)

/-- A one-row table with a non-null sprint, for C3's witness. -/
def c3wRows : List NormRow := [mkRow (some "S1") (some 1) (some 1) (some 1)]

/-- C3 (amended), witnessed on a table whose sprints are all non-null. -/
theorem C3_full_options_id_witness :
    filterRows c3wRows (monthOptions c3wRows) (yearOptions c3wRows)
      (fyOptions c3wRows) (sprintOptions c3wRows) = c3wRows :=
  C3_full_options_id c3wRows (by decide)

/-- C7: each dimension offers as options the sorted distinct non-null
values of the full normalized table (for Month, Year and FY every value is
non-null; for Sprint the null values are dropped), and a record passes the
combined filter iff it is a record of the table whose value in every one of
the four dimensions is a member of that dimension's selected set (a null
sprint being a member of no selection). -/
theorem C7_options_and_mask :
    (∀ df : List NormRow,
      List.Sorted (· ≤ ·) (monthOptions df) ∧ (monthOptions df).Nodup ∧
        (∀ v, v ∈ monthOptions df ↔ v ∈ df.map (·.month)) ∧
      List.Sorted (· ≤ ·) (yearOptions df) ∧ (yearOptions df).Nodup ∧
        (∀ v, v ∈ yearOptions df ↔ v ∈ df.map (·.year)) ∧
      List.Sorted (· ≤ ·) (fyOptions df) ∧ (fyOptions df).Nodup ∧
        (∀ v, v ∈ fyOptions df ↔ v ∈ df.map (·.fyLabel)) ∧
      List.Sorted (· ≤ ·) (sprintOptions df) ∧ (sprintOptions df).Nodup ∧
        (∀ v, v ∈ sprintOptions df ↔ some v ∈ df.map (·.sprint))) ∧
    (∀ (df : List NormRow) (sM : List String) (sY : List Int) (sF sS : List String)
        (r : NormRow),
      r ∈ filterRows df sM sY sF sS ↔
        r ∈ df ∧ r.month ∈ sM ∧ r.year ∈ sY ∧ r.fyLabel ∈ sF ∧
          ∃ s, r.sprint = some s ∧ s ∈ sS) := by
  constructor
  · intro df
    refine ⟨sorted_optionsOf _, nodup_optionsOf _, fun v => mem_optionsOf,
            sorted_optionsOf _, nodup_optionsOf _, fun v => mem_optionsOf,
            sorted_optionsOf _, nodup_optionsOf _, fun v => mem_optionsOf,
            sorted_optionsOf _, nodup_optionsOf _, fun v => ?_⟩
    unfold sprintOptions
    rw [mem_optionsOf, List.mem_filterMap]
    constructor
    · rintro ⟨a, ha, hav⟩
      cases a with
      | none => cases hav
      | some b => cases hav; exact ha
    · intro hv
      exact ⟨some v, hv, rfl⟩
  · intro df sM sY sF sS r
    unfold filterRows passes
    rw [List.mem_filter]
    simp only [Bool.and_eq_true, decide_eq_true_eq]
    constructor
    · rintro ⟨hdf, ⟨⟨hm, hy⟩, hf⟩, hs⟩
      cases hsp : r.sprint with
      | none => rw [hsp] at hs; cases hs
      | some s =>
        rw [hsp] at hs
        exact ⟨hdf, hm, hy, hf, s, rfl, by simpa using hs⟩
    · rintro ⟨hdf, hm, hy, hf, s, hsp, hs⟩
      refine ⟨hdf, ⟨⟨hm, hy⟩, hf⟩, ?_⟩
      rw [hsp]
      simpa using hs

/-- C10: the money formatter renders a null amount as `"$0"` (not as the
dash marker) when `zero_dash` is off, so the Avg Savings / Rec KPI shows
`"$0"` whenever the mean is undefined (empty view or all-null column);
with `zero_dash` on, null amounts and amounts of absolute value below 0.5
render as the dash. -/
theorem C10_money_formatting :
    money none false = "$0" ∧
    money none false ≠ "—" ∧
    (∀ df : List NormRow, meanOpt (df.map (·.costSavingsAmt)) = none →
      avgSavingsDisplay df = "$0") ∧
    money none true = "—" ∧
    (∀ q : ℚ, |q| < 1/2 → money (some q) true = "—") := by
  refine ⟨rfl, by decide, ?_, rfl, ?_⟩
  · intro df h
    unfold avgSavingsDisplay
    rw [h]
    rfl
  · intro q h
    simp only [money]
    rw [if_pos ⟨h, trivial⟩]

/-- C10, witnessed on the empty view and on the amount 0. -/
theorem C10_money_formatting_witness :
    avgSavingsDisplay [] = "$0" ∧ money (some (0 : ℚ)) true = "—" :=
  ⟨C10_money_formatting.2.2.1 [] rfl,
   C10_money_formatting.2.2.2.2 0 (by norm_num [abs_zero])⟩

/-- C5: every record the loader emits is the normalization of a source row,
and normalization (i) materializes every column missing from the source as
null, (ii) fills every one of the eight numeric columns with the coercion
result — a valid number or null, never an error, (iii) always produces an
effective date — the start date, falling back to the end date, falling back
to today — and (iv) derives Month, Year, FY, Quarter and FY-Quarter from
that (hence non-null) effective date. -/
theorem C5_normalization_invariants (p : Presence) (today : Date) (raw : RawRow) :
    (∀ (t : RawTable) (dflt : Option RawTable) (r : NormRow),
      r ∈ (loadData (some t) dflt today).1 →
        ∃ raw2 ∈ t.rows, r = normalizeRow t.pres today raw2) ∧
    (normalizeRow p today raw).sprint = (if p.sprint then raw.sprint else none) ∧
    (normalizeRow p today raw).startDate =
      (if p.startDate then parseDate raw.startDate else none) ∧
    (normalizeRow p today raw).endDate =
      (if p.endDate then parseDate raw.endDate else none) ∧
    (normalizeRow p today raw).inferenceType =
      (if p.inferenceType then raw.inferenceType else none) ∧
    (normalizeRow p today raw).region = (if p.region then raw.region else none) ∧
    (normalizeRow p today raw).cloudProvider =
      (if p.cloudProvider then raw.cloudProvider else none) ∧
    (normalizeRow p today raw).currentMonthlyCost =
      (if p.currentMonthlyCost then parseNum raw.currentMonthlyCost else none) ∧
    (normalizeRow p today raw).estMonthlyCost =
      (if p.estMonthlyCost then parseNum raw.estMonthlyCost else none) ∧
    (normalizeRow p today raw).costSavingsAmt =
      (if p.costSavingsAmt then parseNum raw.costSavingsAmt else none) ∧
    (normalizeRow p today raw).costSavingsPct =
      (if p.costSavingsPct then parseNum raw.costSavingsPct else none) ∧
    (normalizeRow p today raw).achievedSavings =
      (if p.achievedSavings then parseNum raw.achievedSavings else none) ∧
    (normalizeRow p today raw).unachievableSavings =
      (if p.unachievableSavings then parseNum raw.unachievableSavings else none) ∧
    (normalizeRow p today raw).delayedSavings =
      (if p.delayedSavings then parseNum raw.delayedSavings else none) ∧
    (normalizeRow p today raw).initiatedSavings =
      (if p.initiatedSavings then parseNum raw.initiatedSavings else none) ∧
    (∀ d, (normalizeRow p today raw).startDate = some d →
      (normalizeRow p today raw).effectiveDate = d) ∧
    ((normalizeRow p today raw).startDate = none →
      ∀ d, (normalizeRow p today raw).endDate = some d →
        (normalizeRow p today raw).effectiveDate = d) ∧
    ((normalizeRow p today raw).startDate = none →
      (normalizeRow p today raw).endDate = none →
        (normalizeRow p today raw).effectiveDate = today) ∧
    (normalizeRow p today raw).month =
      monthName (normalizeRow p today raw).effectiveDate.month ∧
    (normalizeRow p today raw).year = (normalizeRow p today raw).effectiveDate.year ∧
    (normalizeRow p today raw).fyLabel =
      "FY" ++ toString (fy (normalizeRow p today raw).effectiveDate) ∧
    (normalizeRow p today raw).quarter = fq (normalizeRow p today raw).effectiveDate ∧
    (normalizeRow p today raw).fyQuarter =
      (normalizeRow p today raw).fyLabel ++ " " ++ (normalizeRow p today raw).quarter := by
  refine ⟨?_, rfl, rfl, rfl, rfl, rfl, rfl, rfl, rfl, rfl, rfl, rfl, rfl, rfl, rfl,
    ?_, ?_, ?_, rfl, rfl, rfl, rfl, rfl⟩
  · intro t dflt r hr
    have hr2 : r ∈ t.rows.map (normalizeRow t.pres today) := hr
    obtain ⟨raw2, h2, h3⟩ := List.mem_map.1 hr2
    exact ⟨raw2, h2, h3.symm⟩
  · intro d hd
    show ((normalizeRow p today raw).startDate.orElse
      (fun _ => (normalizeRow p today raw).endDate)).getD today = d
    rw [hd]
    rfl
  · intro hsd d hed
    show ((normalizeRow p today raw).startDate.orElse
      (fun _ => (normalizeRow p today raw).endDate)).getD today = d
    rw [hsd, hed]
    rfl
  · intro hsd hed
    show ((normalizeRow p today raw).startDate.orElse
      (fun _ => (normalizeRow p today raw).endDate)).getD today = today
    rw [hsd, hed]
    rfl

/-- A presence vector with `Sprint`, `Inference Type` and `Cost Savings in %`
missing from the source sheet, for C5's witness. -/
def c5Pres : Presence :=
  { sprint := false, startDate := true, endDate := true, inferenceType := false,
    region := true, cloudProvider := true, currentMonthlyCost := true,
    estMonthlyCost := true, costSavingsAmt := true, costSavingsPct := false,
    achievedSavings := true, unachievableSavings := true, delayedSavings := true,
    initiatedSavings := true }

/-- A raw row whose dates and current cost fail to parse, for C5's witness. -/
def c5Raw : RawRow :=
  { sprint := some "S9", startDate := RawCell.rstr "not a date",
    endDate := RawCell.rnull, inferenceType := some "vm", region := none,
    cloudProvider := none, currentMonthlyCost := RawCell.rstr "n/a",
    estMonthlyCost := RawCell.rnum 5, costSavingsAmt := RawCell.rnum 2,
    costSavingsPct := RawCell.rnum 10, achievedSavings := RawCell.rnull,
    unachievableSavings := RawCell.rnull, delayedSavings := RawCell.rnull,
    initiatedSavings := RawCell.rnull }

/-- The load date of C5's witness. -/
def c5Today : Date := ⟨2025, 10, 12⟩

/-- The one-row raw table of C5's witness. -/
def c5T : RawTable := { pres := c5Pres, rows := [c5Raw] }

/-- C5, witnessed on a row with a missing sprint column, unparsable dates
and an unparsable current cost: the sprint and cost come out null, the
effective date falls back to today, and the loader's row is the
normalization of the source row. -/
theorem C5_normalization_invariants_witness :
    (normalizeRow c5Pres c5Today c5Raw).sprint = none ∧
    (normalizeRow c5Pres c5Today c5Raw).currentMonthlyCost = none ∧
    (normalizeRow c5Pres c5Today c5Raw).effectiveDate = c5Today ∧
    ∃ raw2 ∈ c5T.rows,
      normalizeRow c5Pres c5Today c5Raw = normalizeRow c5T.pres c5Today raw2 := by
  obtain ⟨hload, hsprint, hsd, hed, hinf, hreg, hcp, hcur, hest, hsav, hpct,
    hach, hun, hdel, hini, heff1, heff2, heff3, hmon, hyear, hfy, hq, hfyq⟩ :=
    C5_normalization_invariants c5Pres c5Today c5Raw
  refine ⟨?_, ?_, heff3 rfl rfl, ?_⟩
  · rw [hsprint]
    rfl
  · rw [hcur]
    rfl
  · exact hload c5T none _
      (List.mem_map_of_mem (normalizeRow c5T.pres c5Today) (List.mem_singleton_self c5Raw))

end Sedai
